import Mathlib

/-!
Verification of the quiz session engine in src/script.js.

The JavaScript source is shallowly embedded: global session state becomes an
explicit record, DOM work is dropped (the spec excludes the rendering layer),
and every call to Math.random is modelled as an externally supplied draw.
At loop step i the source computes Math.floor(Math.random() * (i + 1)), a
value in [0, i]; we pass the draw in as (rand i) and, where a bound matters,
hypothesise it, since the source guarantees it.
-/

namespace Quiz

/-- A question record from the JSON bank: question text, the answer options,
and the correct answer's text (script.js accesses fields question, options,
answer). -/
structure QuestionRecord where
  question : String
  options : List String
  answer : String
deriving DecidableEq, Repr

/-- The mutable globals of script.js lines 22-24: currentQuestionIndex,
score, questionAnswered. -/
structure SessionState where
  currentQuestionIndex : Nat
  score : Nat
  questionAnswered : Bool
deriving DecidableEq, Repr

/-- QUIZ_LENGTH = 10 (script.js line 2). -/
def QUIZ_LENGTH : Nat := 10

/-- correctMessages pool (script.js lines 5-11). -/
def correctMessages : List String :=
  ["Affirmative!",
   "Perfect resolution!",
   "Well done!",
   "You've got the satellite view.",
   "Mission success!"]

/-- incorrectMessages pool (script.js lines 13-19). -/
def incorrectMessages : List String :=
  ["Missed the mark.",
   "Negative. Recalibrate your coordinates.",
   "That's not the right spectral band.",
   "Try again, surveyor.",
   "Nah, that ain't it..."]

/-- One step of the Fisher-Yates loop body (script.js line 39):
the destructuring swap [array[i], array[j]] = [array[j], array[i]].
Reads both cells, then writes array[i] := old array[j] and
array[j] := old array[i]; in the source both indices are always in
bounds, so the fallback branch is never taken there. -/
def listSwap {α : Type} (l : List α) (i j : Nat) : List α :=
  match l[i]?, l[j]? with
  | some a, some b => (l.set i b).set j a
  | _, _ => l

/-- The Fisher-Yates loop of shuffleArray (script.js lines 37-40), counting
i down from the initial value to 1; (rand i) is the draw
Math.floor(Math.random() * (i + 1)) made at loop counter i. -/
def fyLoop {α : Type} (rand : Nat → Nat) : Nat → List α → List α
  | 0, l => l
  | Nat.succ k, l => fyLoop rand k (listSwap l (k + 1) (rand (k + 1)))

/-- shuffleArray (script.js lines 36-41): Fisher-Yates from
i = array.length - 1 down to i = 1. -/
def shuffleArray {α : Type} (rand : Nat → Nat) (l : List α) : List α :=
  fyLoop rand (l.length - 1) l

/-- The sampling step of loadQuestionsAndInit (script.js lines 53-55):
copy the bank, shuffle it, take the first QUIZ_LENGTH records. -/
def sampleQuestions (rand : Nat → Nat) (quizData : List QuestionRecord) :
    List QuestionRecord :=
  (shuffleArray rand quizData).take QUIZ_LENGTH

/-- The state set up by initQuiz (script.js lines 68-70):
currentQuestionIndex = 0, score = 0, questionAnswered = false. -/
def initState : SessionState :=
  { currentQuestionIndex := 0, score := 0, questionAnswered := false }

/-- What checkAnswer (script.js lines 123-163) reports back. -/
inductive CheckOutcome where
  /-- The early return on line 124: the question was already answered. -/
  | alreadyAnswered : CheckOutcome
  /-- An evaluation happened: whether the pick was correct, and the
  feedback message shown (lines 150-151 / 157-158). -/
  | evaluated (correct : Bool) (message : String) : CheckOutcome
deriving DecidableEq, Repr

/-- checkAnswer (script.js lines 123-163), with the DOM styling dropped.
rand is the draw Math.floor(Math.random() * pool.length) used to pick the
feedback message; in the source it is always < pool.length. -/
def checkAnswer (rand : Nat) (st : SessionState)
    (selectedOption correctAnswer : String) : SessionState × CheckOutcome :=
  if st.questionAnswered then (st, .alreadyAnswered)
  else
    let st1 := { st with questionAnswered := true }
    if selectedOption = correctAnswer then
      ({ st1 with score := st1.score + 1 },
       .evaluated true (correctMessages.getD rand ""))
    else
      (st1,
       .evaluated false
         ((incorrectMessages.getD rand "") ++ " The correct answer was: "
           ++ correctAnswer ++ "."))

/-- The final message of showResults (script.js lines 191-193). -/
def showResultsMessage (score total : Nat) : String :=
  if score = total then "You've achieved perfect resolution! All correct!"
  else "You scored " ++ toString score ++ " out of " ++ toString total
    ++ ". Keep learning about our world!"

/-- What loadQuestion (script.js lines 89-118) renders: either the current
question with its shuffled options, or (when the index has run past the
active set) the results screen with its final message. -/
inductive LoadQuestionView where
  | showQuestion (q : QuestionRecord) (presented : List String) : LoadQuestionView
  | results (message : String) : LoadQuestionView
deriving DecidableEq, Repr

/-- loadQuestion (script.js lines 89-118): on index overrun it calls
showResults (line 91) and returns; otherwise it resets questionAnswered to
false (line 100), copies and shuffles the current question's options
(lines 103-104) and renders them. rand supplies the shuffle's draws. -/
def loadQuestion (rand : Nat → Nat) (active : List QuestionRecord)
    (st : SessionState) : LoadQuestionView × SessionState :=
  if h : st.currentQuestionIndex < active.length then
    let current := active.get ⟨st.currentQuestionIndex, h⟩
    (.showQuestion current (shuffleArray rand current.options),
     { st with questionAnswered := false })
  else
    (.results (showResultsMessage st.score active.length), st)

/-- The option-shuffling step of loadQuestion alone (script.js lines
103-104): a fresh shuffled copy of the current question's options. -/
def presentOptions (rand : Nat → Nat) (q : QuestionRecord) : List String :=
  shuffleArray rand q.options

/-- The outcome of the loader (script.js lines 46-62): either an error
message (the catch branch, line 60) or the sampled active questions
together with the state initQuiz set up. -/
inductive FetchOutcome where
  /-- fetch itself rejected: the resource was unreachable. -/
  | unreachable : FetchOutcome
  /-- fetch resolved with ok-flag ok; json is the parsed payload, none
  when the body was malformed (res.json() rejects). -/
  | response (ok : Bool) (json : Option (List QuestionRecord)) : FetchOutcome
deriving DecidableEq, Repr

/-- loadQuestionsAndInit (script.js lines 46-62): throw on a non-OK
response (line 49), propagate fetch/parse failures to the catch branch
(lines 58-61), otherwise sample QUIZ_LENGTH questions and run initQuiz. -/
def loadQuestionsAndInit (rand : Nat → Nat) (f : FetchOutcome) :
    Except String (List QuestionRecord × SessionState) :=
  match f with
  | .unreachable =>
      .error "Failed to load questions. Please make sure questions.json is available."
  | .response ok json =>
      if !ok then
        .error "Failed to load questions. Please make sure questions.json is available."
      else
        match json with
        | none =>
            .error "Failed to load questions. Please make sure questions.json is available."
        | some quizData => .ok (sampleQuestions rand quizData, initState)

/-- nextQuestion (script.js lines 177-180): advance the index; the
subsequent loadQuestion call resets questionAnswered. -/
def nextQuestion (st : SessionState) : SessionState :=
  { st with currentQuestionIndex := st.currentQuestionIndex + 1 }

/-- Modelled from the spec: the restart button's click wiring lives in the
HTML page, which is not among the provided sources. Spec section 4.7 says
RESTART re-invokes sampling (a new random subset/order) and resets
score = 0, currentIndex = 0, answered = false; the reset itself is
initQuiz (script.js lines 67-76). -/
def restart (rand : Nat → Nat) (bank : List QuestionRecord) :
    List QuestionRecord × SessionState :=
  (sampleQuestions rand bank, initState)

/-! ## Permutation facts about the shuffle -/

/-- Replacing the element at an in-bounds position and consing it in front
is a permutation: the core of the swap argument. -/
theorem cons_set_perm {α : Type} :
    ∀ (xs : List α) (j : Nat) (b x : α), xs[j]? = some b →
      List.Perm (b :: xs.set j x) (x :: xs) := by
  intro xs
  induction xs with
  | nil => intro j b x h; simp at h
  | cons y ys ih =>
    intro j b x h
    cases j with
    | zero =>
      rw [List.getElem?_cons_zero, Option.some.injEq] at h
      subst h
      exact List.Perm.swap x y ys
    | succ k =>
      rw [List.getElem?_cons_succ] at h
      rw [List.set_cons_succ]
      exact List.Perm.trans (List.Perm.swap y b _)
        (List.Perm.trans (List.Perm.cons y (ih k b x h)) (List.Perm.swap x y ys))

/-- Writing back the two elements read at positions p and q permutes the
list, whatever the positions. -/
theorem set_set_perm {α : Type} :
    ∀ (m : List α) (p q : Nat) (u v : α), m[p]? = some u →
      m[q]? = some v → List.Perm ((m.set p v).set q u) m := by
  intro m
  induction m with
  | nil => intro p q u v hp hq; simp at hp
  | cons y ys ih =>
    intro p q u v hp hq
    cases p with
    | zero =>
      rw [List.getElem?_cons_zero, Option.some.injEq] at hp
      subst hp
      cases q with
      | zero => simp
      | succ k =>
        rw [List.getElem?_cons_succ] at hq
        have hrw : ((y :: ys).set 0 v).set (k + 1) y = v :: ys.set k y := by
          rw [List.set_cons_zero, List.set_cons_succ]
        rw [hrw]
        exact cons_set_perm ys k v y hq
    | succ i =>
      rw [List.getElem?_cons_succ] at hp
      cases q with
      | zero =>
        rw [List.getElem?_cons_zero, Option.some.injEq] at hq
        subst hq
        have hrw : ((y :: ys).set (i + 1) y).set 0 u = u :: ys.set i y := by
          rw [List.set_cons_succ, List.set_cons_zero]
        rw [hrw]
        exact cons_set_perm ys i u y hp
      | succ k =>
        rw [List.getElem?_cons_succ] at hq
        have hrw : ((y :: ys).set (i + 1) v).set (k + 1) u
            = y :: (ys.set i v).set k u := by
          rw [List.set_cons_succ, List.set_cons_succ]
        rw [hrw]
        exact List.Perm.cons y (ih i k u v hp hq)

/-- A listSwap is a permutation of the original list. -/
theorem listSwap_perm {α : Type} (l : List α) (i j : Nat) :
    List.Perm (listSwap l i j) l := by
  unfold listSwap
  cases hi : l[i]? with
  | none => simp
  | some a =>
    cases hj : l[j]? with
    | none => simp
    | some b =>
      simp only
      exact set_set_perm l i j a b hi hj

/-- Every pass of the Fisher-Yates loop permutes the list. -/
theorem fyLoop_perm {α : Type} (rand : Nat → Nat) :
    ∀ (n : Nat) (l : List α), List.Perm (fyLoop rand n l) l := by
  intro n
  induction n with
  | zero => intro l; exact List.Perm.refl l
  | succ k ih =>
    intro l
    exact List.Perm.trans (ih (listSwap l (k + 1) (rand (k + 1))))
      (listSwap_perm l (k + 1) (rand (k + 1)))

/-- shuffleArray returns a permutation of its input, whatever the draws. -/
theorem shuffleArray_perm {α : Type} (rand : Nat → Nat) (l : List α) :
    List.Perm (shuffleArray rand l) l :=
  fyLoop_perm rand (l.length - 1) l

/-- The sample is drawn from the bank without replacement: it is a sublist
of a permutation of the bank. -/
theorem sampleQuestions_subperm (rand : Nat → Nat) (bank : List QuestionRecord) :
    (sampleQuestions rand bank).Subperm bank :=
  List.Subperm.trans (List.take_sublist QUIZ_LENGTH (shuffleArray rand bank)).subperm
    (shuffleArray_perm rand bank).subperm

/-! ## Concrete data used by the witnesses -/

/-- A ten-record bank with pairwise distinct records. -/
def demoBank : List QuestionRecord :=
  [⟨"q0", ["a", "b"], "a"⟩, ⟨"q1", ["a", "b"], "a"⟩, ⟨"q2", ["a", "b"], "a"⟩,
   ⟨"q3", ["a", "b"], "a"⟩, ⟨"q4", ["a", "b"], "a"⟩, ⟨"q5", ["a", "b"], "a"⟩,
   ⟨"q6", ["a", "b"], "a"⟩, ⟨"q7", ["a", "b"], "a"⟩, ⟨"q8", ["a", "b"], "a"⟩,
   ⟨"q9", ["a", "b"], "a"⟩]

/-- A three-record bank, shorter than QUIZ_LENGTH. -/
def demoBank3 : List QuestionRecord :=
  [⟨"q0", ["a", "b"], "a"⟩, ⟨"q1", ["a", "b"], "a"⟩, ⟨"q2", ["a", "b"], "a"⟩]

/-- A two-record bank with distinct records. -/
def demoBank2 : List QuestionRecord :=
  [⟨"q0", ["a", "b"], "a"⟩, ⟨"q1", ["a", "b"], "a"⟩]

/-- A record whose answer occurs among its options. -/
def demoQuestion : QuestionRecord :=
  ⟨"Which fish?", ["catfish", "sturgeon", "salmon"], "sturgeon"⟩

/-! ## Claims -/

/-- C1: with answered already true, a second checkAnswer call is a no-op
that reports the already-answered indicator: score, answered and
currentIndex are all unchanged. -/
theorem checkAnswer_already_answered_noop (rand : Nat) (st : SessionState)
    (sel c : String) (h : st.questionAnswered = true) :
    checkAnswer rand st sel c = (st, CheckOutcome.alreadyAnswered) := by
  simp [checkAnswer, h]

theorem checkAnswer_already_answered_noop_witness :
    ({ currentQuestionIndex := 2, score := 1, questionAnswered := true }
        : SessionState).questionAnswered = true ∧
    checkAnswer 0 { currentQuestionIndex := 2, score := 1, questionAnswered := true }
        "catfish" "sturgeon"
      = ({ currentQuestionIndex := 2, score := 1, questionAnswered := true },
         CheckOutcome.alreadyAnswered) :=
  ⟨rfl, checkAnswer_already_answered_noop 0
    { currentQuestionIndex := 2, score := 1, questionAnswered := true }
    "catfish" "sturgeon" rfl⟩

/-- C2: with answered false beforehand, correctness is exact string
equality; on a match the score rises by exactly 1, otherwise it is
unchanged; answered becomes true either way and the index does not move. -/
theorem checkAnswer_exact_equality_scoring (rand : Nat) (st : SessionState)
    (sel c : String) (h : st.questionAnswered = false) :
    (checkAnswer rand st sel c).1.questionAnswered = true ∧
    (checkAnswer rand st sel c).1.score
      = (if sel = c then st.score + 1 else st.score) ∧
    (checkAnswer rand st sel c).1.currentQuestionIndex = st.currentQuestionIndex ∧
    (∃ m, (checkAnswer rand st sel c).2
      = CheckOutcome.evaluated (decide (sel = c)) m) := by
  by_cases hc : sel = c <;> simp [checkAnswer, h, hc]

theorem checkAnswer_exact_equality_scoring_witness :
    initState.questionAnswered = false ∧
    ((checkAnswer 0 initState "catfish" "sturgeon").1.questionAnswered = true ∧
     (checkAnswer 0 initState "catfish" "sturgeon").1.score
       = (if ("catfish" : String) = "sturgeon" then initState.score + 1
          else initState.score) ∧
     (checkAnswer 0 initState "catfish" "sturgeon").1.currentQuestionIndex
       = initState.currentQuestionIndex ∧
     (∃ m, (checkAnswer 0 initState "catfish" "sturgeon").2
       = CheckOutcome.evaluated (decide (("catfish" : String) = "sturgeon")) m)) :=
  ⟨rfl, checkAnswer_exact_equality_scoring 0 initState "catfish" "sturgeon" rfl⟩

/-- C3: with at least QUIZ_LENGTH records in the bank, the sample has
exactly QUIZ_LENGTH records, drawn from the bank without replacement (a
subpermutation), so each sampled record is in the bank, and if the bank
has no duplicate records neither does the sample. -/
theorem sampleQuestions_ten_distinct (rand : Nat → Nat)
    (bank : List QuestionRecord) (h : QUIZ_LENGTH ≤ bank.length) :
    (sampleQuestions rand bank).length = QUIZ_LENGTH ∧
    (sampleQuestions rand bank).Subperm bank ∧
    (∀ q ∈ sampleQuestions rand bank, q ∈ bank) ∧
    (bank.Nodup → (sampleQuestions rand bank).Nodup) := by
  have hperm := shuffleArray_perm rand bank
  refine ⟨?_, sampleQuestions_subperm rand bank, ?_, ?_⟩
  · unfold sampleQuestions
    rw [List.length_take, hperm.length_eq]
    exact Nat.min_eq_left h
  · exact fun q hq => (sampleQuestions_subperm rand bank).subset hq
  · intro hnd
    exact (List.take_sublist QUIZ_LENGTH (shuffleArray rand bank)).nodup
      (hperm.nodup_iff.mpr hnd)

theorem sampleQuestions_ten_distinct_witness :
    QUIZ_LENGTH ≤ demoBank.length ∧
    ((sampleQuestions (fun _ => 0) demoBank).length = QUIZ_LENGTH ∧
     (sampleQuestions (fun _ => 0) demoBank).Subperm demoBank ∧
     (∀ q ∈ sampleQuestions (fun _ => 0) demoBank, q ∈ demoBank) ∧
     (demoBank.Nodup → (sampleQuestions (fun _ => 0) demoBank).Nodup)) :=
  ⟨by decide, sampleQuestions_ten_distinct (fun _ => 0) demoBank (by decide)⟩

/-- C4: a non-empty bank shorter than QUIZ_LENGTH samples to exactly
its own length, and the sample is a permutation of the whole bank: no
padding, no duplication, no error. -/
theorem sampleQuestions_short_bank (rand : Nat → Nat)
    (bank : List QuestionRecord) (_hne : bank ≠ [])
    (h : bank.length < QUIZ_LENGTH) :
    (sampleQuestions rand bank).length = bank.length ∧
    List.Perm (sampleQuestions rand bank) bank := by
  have hperm := shuffleArray_perm rand bank
  have heq : sampleQuestions rand bank = shuffleArray rand bank := by
    unfold sampleQuestions
    exact List.take_of_length_le (by rw [hperm.length_eq]; omega)
  rw [heq]
  exact ⟨hperm.length_eq, hperm⟩

theorem sampleQuestions_short_bank_witness :
    demoBank3 ≠ [] ∧ demoBank3.length < QUIZ_LENGTH ∧
    ((sampleQuestions (fun _ => 0) demoBank3).length = demoBank3.length ∧
     List.Perm (sampleQuestions (fun _ => 0) demoBank3) demoBank3) :=
  ⟨by decide, by decide,
   sampleQuestions_short_bank (fun _ => 0) demoBank3 (by decide) (by decide)⟩

/-- C5: presenting a question permutes its options — the presented list
is a permutation of the original options, whatever the draws — and so the
correct answer's text, when among the options, stays among the presented
options verbatim. -/
theorem presentOptions_permutation (rand : Nat → Nat) (q : QuestionRecord) :
    List.Perm (presentOptions rand q) q.options ∧
    (q.answer ∈ q.options → q.answer ∈ presentOptions rand q) :=
  ⟨shuffleArray_perm rand q.options,
   fun hm => (shuffleArray_perm rand q.options).mem_iff.mpr hm⟩

theorem presentOptions_permutation_witness :
    demoQuestion.answer ∈ demoQuestion.options ∧
    demoQuestion.answer ∈ presentOptions (fun _ => 0) demoQuestion :=
  ⟨by decide, (presentOptions_permutation (fun _ => 0) demoQuestion).2 (by decide)⟩

/-- C6: restarting samples afresh — the new active set is the sample the
fresh draws produce from the bank, drawn without replacement — and resets
score to 0, currentIndex to 0 and answered to false; the sampled set
really depends on the fresh draws (two draw streams giving different
sets exist), so a restart is not a replay of the previous set. -/
theorem restart_fresh_sample_resets (rand : Nat → Nat)
    (bank : List QuestionRecord) :
    (restart rand bank).2 = initState ∧
    (restart rand bank).2.score = 0 ∧
    (restart rand bank).2.currentQuestionIndex = 0 ∧
    (restart rand bank).2.questionAnswered = false ∧
    (restart rand bank).1 = sampleQuestions rand bank ∧
    (restart rand bank).1.Subperm bank ∧
    (∃ r1 r2 : Nat → Nat, (restart r1 demoBank2).1 ≠ (restart r2 demoBank2).1) := by
  refine ⟨rfl, rfl, rfl, rfl, rfl, sampleQuestions_subperm rand bank,
    fun _ => 0, fun _ => 1, ?_⟩
  decide

/-- C7 counterexample: a reachable, OK, well-formed but empty bank does
not produce an error — the loader proceeds through sampling and starts a
session with zero questions. -/
theorem loadQuestions_empty_bank_ok :
    loadQuestionsAndInit (fun _ => 0) (FetchOutcome.response true (some []))
      = Except.ok ([], initState) := rfl

/-- C7 (amended): loading fails exactly when the resource is unreachable,
the response is non-OK, or the payload is malformed — an empty bank is not
an error; and exactly on a well-formed payload the loader proceeds to
sampling and the initialized session state. -/
theorem loadQuestions_error_iff (rand : Nat → Nat) (f : FetchOutcome) :
    ((∃ e, loadQuestionsAndInit rand f = Except.error e) ↔
      f = FetchOutcome.unreachable ∨
        (∃ j, f = FetchOutcome.response false j) ∨
        f = FetchOutcome.response true none) ∧
    (∀ bank, f = FetchOutcome.response true (some bank) →
      loadQuestionsAndInit rand f
        = Except.ok (sampleQuestions rand bank, initState)) := by
  constructor
  · cases f with
    | unreachable => simp [loadQuestionsAndInit]
    | response ok json =>
      cases ok with
      | false => simp [loadQuestionsAndInit]
      | true =>
        cases json with
        | none => simp [loadQuestionsAndInit]
        | some bank => simp [loadQuestionsAndInit]
  · intro bank hf
    subst hf
    rfl

theorem loadQuestions_error_iff_witness :
    loadQuestionsAndInit (fun _ => 0) (FetchOutcome.response true (some demoBank3))
      = Except.ok (sampleQuestions (fun _ => 0) demoBank3, initState) :=
  (loadQuestions_error_iff (fun _ => 0)
    (FetchOutcome.response true (some demoBank3))).2 demoBank3 rfl

/-- A string that begins with the scored-interpolation opening can never
equal the fixed perfect-score message. -/
theorem scored_data_ne (l : List Char) :
    "You scored ".data ++ l
      ≠ "You've achieved perfect resolution! All correct!".data := by
  intro h
  have h5 := congrArg (List.take 5) h
  rw [List.take_append_of_le_length (by decide)] at h5
  exact absurd h5 (by decide)

/-- C8: the final message is a pure function of score and total; it is
the fixed perfect-score message exactly when score equals total, and
otherwise the message interpolating score and total. -/
theorem showResults_perfect_iff (s t : Nat) :
    (showResultsMessage s t
        = "You've achieved perfect resolution! All correct!" ↔ s = t) ∧
    (s ≠ t → showResultsMessage s t
      = "You scored " ++ toString s ++ " out of " ++ toString t
        ++ ". Keep learning about our world!") := by
  constructor
  · constructor
    · intro h
      by_contra hne
      unfold showResultsMessage at h
      rw [if_neg hne] at h
      have hd := congrArg String.data h
      simp only [String.data_append, List.append_assoc] at hd
      exact scored_data_ne _ hd
    · intro h
      unfold showResultsMessage
      rw [if_pos h]
  · intro hne
    unfold showResultsMessage
    rw [if_neg hne]

theorem showResults_perfect_iff_witness :
    (1 ≠ 3) ∧ showResultsMessage 1 3
      = "You scored " ++ toString 1 ++ " out of " ++ toString 3
        ++ ". Keep learning about our world!" :=
  ⟨by decide, (showResults_perfect_iff 1 3).2 (by decide)⟩

/-- C9: on an incorrect evaluation, for any in-range draw, the feedback
message is a pool member followed by the fixed tail, and it ends exactly
with "The correct answer was: " ++ c ++ ".". -/
theorem checkAnswer_incorrect_message_suffix (rand : Nat) (st : SessionState)
    (sel c : String) (h : st.questionAnswered = false) (hne : sel ≠ c)
    (hr : rand < incorrectMessages.length) :
    ∃ p, p ∈ incorrectMessages ∧
      (checkAnswer rand st sel c).2
        = CheckOutcome.evaluated false (p ++ " The correct answer was: " ++ c ++ ".") ∧
      ∃ pre, p ++ " The correct answer was: " ++ c ++ "."
        = pre ++ ("The correct answer was: " ++ c ++ ".") := by
  refine ⟨incorrectMessages.getD rand "", ?_, ?_, ?_⟩
  · rw [List.getD_eq_getElem incorrectMessages "" hr]
    exact List.getElem_mem hr
  · simp [checkAnswer, h, hne]
  · refine ⟨incorrectMessages.getD rand "" ++ " ", ?_⟩
    have hsplit : (" The correct answer was: " : String)
        = " " ++ "The correct answer was: " := rfl
    rw [hsplit, ← String.append_assoc (incorrectMessages.getD rand "") " "
      "The correct answer was: "]
    simp only [String.append_assoc]

theorem checkAnswer_incorrect_message_suffix_witness :
    initState.questionAnswered = false ∧ ("catfish" : String) ≠ "sturgeon" ∧
    0 < incorrectMessages.length ∧
    (∃ p, p ∈ incorrectMessages ∧
      (checkAnswer 0 initState "catfish" "sturgeon").2
        = CheckOutcome.evaluated false
            (p ++ " The correct answer was: " ++ "sturgeon" ++ ".") ∧
      ∃ pre, p ++ " The correct answer was: " ++ "sturgeon" ++ "."
        = pre ++ ("The correct answer was: " ++ "sturgeon" ++ ".")) :=
  ⟨rfl, by decide, by decide,
   checkAnswer_incorrect_message_suffix 0 initState "catfish" "sturgeon"
     rfl (by decide) (by decide)⟩

/-- C10: with an empty active question set, loading a question from the
freshly initialized state goes straight to the results view, whose message
is the perfect-score message, since score 0 equals total 0. -/
theorem loadQuestion_empty_completion (rand : Nat → Nat) :
    loadQuestion rand [] initState
      = (LoadQuestionView.results "You've achieved perfect resolution! All correct!",
         initState) := rfl

end Quiz
